import Mathlib

/-!
Verification of the paginated grid navigation and caching engine of
benjamingriff/secretsrc.

The development shallowly embeds the two source files that hold the core:

* `pkg/ui/components/grid.go` — the `SecretGrid` component (layout, screen
  pagination, cursor movement, filtering, key handling); and
* `pkg/ui/app.go` — the slice of the Bubble Tea `Model` that owns remote
  pagination (`pageHistory`, `currentPage`, `nextToken`, `hasMore`) together
  with the `secretsLoadedMsg` handler and the secret-list key handler.

Modelling conventions:

* Go `int` values that can be negative in reachable states (viewport width
  and height, which the app computes as `msg.Width - 6` / `msg.Height - 10`)
  are embedded as `Int`; Go integer division truncates toward zero, which is
  `Int.tdiv` here (`/` on `Int` in Lean is floor division, so it is not used).
  Counters that are provably non-negative in every reachable state and are
  only compared/incremented (cursor row/column, page indices, page counts)
  are embedded as `Nat`; all subtractions on them in the source are guarded
  so `Nat` subtraction agrees with Go's.
* Go strings are embedded as Lean `String` viewed as its list of characters.
  Go's byte-level `strings.Contains` agrees with character-level infix search
  on valid UTF-8 (UTF-8 is self-synchronizing), and `strings.ToLower` is
  modelled by per-character `Char.toLower` (the secrets in this development
  are ASCII).
* The asynchronous fetch (`loadSecrets` command producing a
  `secretsLoadedMsg`) is modelled by passing an explicit source function
  `Option String → Except String SecretPage` and delivering its answer to the
  message handler in the same step, matching the single-threaded,
  message-at-a-time semantics of the event loop.
* Fields of the Go `Model` that belong to collaborators outside the core
  (AWS client, MFA state, profile/region selectors, clipboard, help flag,
  screen switching) are not part of the embedded state; the key cases that
  only touch those fields ("q", "esc", "enter", "?", "p", "g") leave the
  embedded state unchanged, exactly as the source leaves the pagination and
  grid state unchanged in those cases.
-/

/-- Go integer division truncates toward zero. -/
def godiv (a b : Int) : Int := Int.tdiv a b

/-- Secret from `pkg/models/secret.go`. The `LastChangedDate` timestamp and
the `Tags` map are inert payload never inspected by the grid or pagination
code (only rendered), so they are omitted from the embedding. -/
structure Secret where
  name : String
  arn : String := ""
  description : String := ""
  deriving DecidableEq, Repr

/-- Constants from `grid.go`. -/
def MinCellWidth : Int := 35

/-- Maximum cell width from `grid.go`. -/
def MaxCellWidth : Int := 60

/-- Default cell height from `grid.go`. -/
def DefaultCellHeight : Int := 4

/-- Space between cells from `grid.go`. -/
def CellSpacing : Int := 2

/-- The `SecretGrid` component state from `grid.go`. -/
structure SecretGrid where
  secrets : List Secret
  filteredSecrets : List Secret
  cursorRow : Nat
  cursorCol : Nat
  numCols : Nat
  numRows : Nat
  cellWidth : Int
  gridPageIndex : Nat
  totalGridPages : Nat
  width : Int
  height : Int
  filterQuery : String
  filtering : Bool
  deriving DecidableEq, Repr

/-- Per-cell width the layout loop computes for a candidate column count:
`availableWidth := g.width - (cols-1)*CellSpacing; widthPerCell := availableWidth / cols`. -/
def perCell (width : Int) (cols : Nat) : Int :=
  godiv (width - ((cols : Int) - 1) * CellSpacing) (cols : Int)

/-- The candidate-descent loop of `calculateGridDimensions`:
`for cols := maxPossibleCols; cols >= 1; cols--` accepting the first `cols`
whose per-cell width lies in `[MinCellWidth, MaxCellWidth]`. Returns `none`
when no candidate fits (the loop then leaves the initial values in place). -/
def searchCols (width : Int) : Nat → Option (Nat × Int)
  | 0 => none
  | c + 1 =>
    let w := perCell width (c + 1)
    if MinCellWidth ≤ w ∧ w ≤ MaxCellWidth then some (c + 1, w)
    else searchCols width c

/-- `maxPossibleCols := g.width / (MinCellWidth + CellSpacing)`, clamped to at
least 1. -/
def maxCandidateCols (width : Int) : Nat :=
  (max 1 (godiv width (MinCellWidth + CellSpacing))).toNat

/-- The column/cell-width part of `calculateGridDimensions`: the descent loop
starts from `optimalCols = 1, optimalWidth = MinCellWidth`; afterwards the
guard `optimalCols == 0 || optimalWidth < MinCellWidth` falls back to
`(1, max MinCellWidth width)` (the guard can in fact never fire, see the
claims about it below). -/
def layoutCols (width : Int) : Nat × Int :=
  let found := searchCols width (maxCandidateCols width)
  let opt := found.getD (1, MinCellWidth)
  if opt.1 = 0 ∨ opt.2 < MinCellWidth then (1, max MinCellWidth width)
  else opt

/-- `g.numRows = max(1, g.height/cellHeight)` with `cellHeight = DefaultCellHeight + 1`. -/
def layoutRows (height : Int) : Nat :=
  (max 1 (godiv height (DefaultCellHeight + 1))).toNat

/-- `calculateGridDimensions` from `grid.go`: recomputes `numRows`, `numCols`,
`cellWidth`, `totalGridPages` and clamps `gridPageIndex`. -/
def calculateGridDimensions (g : SecretGrid) : SecretGrid :=
  let numRows := layoutRows g.height
  let cols := layoutCols g.width
  let secretsPerPage := cols.1 * numRows
  let totalGridPages :=
    if 0 < secretsPerPage ∧ 0 < g.filteredSecrets.length then
      (g.filteredSecrets.length + secretsPerPage - 1) / secretsPerPage
    else 1
  let gridPageIndex :=
    if totalGridPages ≤ g.gridPageIndex then totalGridPages - 1 else g.gridPageIndex
  { g with numRows := numRows, numCols := cols.1, cellWidth := cols.2,
           totalGridPages := totalGridPages, gridPageIndex := gridPageIndex }

/-- `NewSecretGrid` from `grid.go` (unset Go fields start at their zero values). -/
def NewSecretGrid (width height : Int) : SecretGrid :=
  calculateGridDimensions
    { secrets := [], filteredSecrets := [], cursorRow := 0, cursorCol := 0,
      numCols := 0, numRows := 0, cellWidth := 0, gridPageIndex := 0,
      totalGridPages := 0, width := width, height := height,
      filterQuery := "", filtering := false }

/-- `getVisibleSecrets`: the slice `filteredSecrets[startIdx:endIdx]` of the
current grid page. -/
def getVisibleSecrets (g : SecretGrid) : List Secret :=
  let secretsPerPage := g.numCols * g.numRows
  let startIdx := g.gridPageIndex * secretsPerPage
  let endIdx := min (startIdx + secretsPerPage) g.filteredSecrets.length
  if g.filteredSecrets.length ≤ startIdx then []
  else (g.filteredSecrets.drop startIdx).take (endIdx - startIdx)

/-- `cursorIndex`: flat index of the cursor in the current page. -/
def cursorIndex (g : SecretGrid) : Nat :=
  g.cursorRow * g.numCols + g.cursorCol

/-- `validateCursorPosition`: reset the cursor to the first position when its
flat index is out of the visible slice. -/
def validateCursorPosition (g : SecretGrid) : SecretGrid :=
  if (getVisibleSecrets g).length ≤ cursorIndex g then
    { g with cursorRow := 0, cursorCol := 0 }
  else g

/-- `SelectedSecret`: the secret under the cursor, or none when the flat index
is out of range (the source guards `idx >= 0 && idx < len(visibleSecrets)`
before indexing, so the access is always in bounds). -/
def SelectedSecret (g : SecretGrid) : Option Secret :=
  let visibleSecrets := getVisibleSecrets g
  let idx := cursorIndex g
  if h : idx < visibleSecrets.length then some (visibleSecrets.get ⟨idx, h⟩)
  else none

/-- `nextGridPage` from `grid.go`. -/
def nextGridPage (g : SecretGrid) : SecretGrid :=
  if g.gridPageIndex < g.totalGridPages - 1 then
    { g with gridPageIndex := g.gridPageIndex + 1, cursorRow := 0, cursorCol := 0 }
  else g

/-- `prevGridPage` from `grid.go`. -/
def prevGridPage (g : SecretGrid) : SecretGrid :=
  if 0 < g.gridPageIndex then
    { g with gridPageIndex := g.gridPageIndex - 1, cursorRow := 0, cursorCol := 0 }
  else g

/-- `moveUp` from `grid.go`. -/
def moveUp (g : SecretGrid) : SecretGrid :=
  if 0 < g.cursorRow then
    validateCursorPosition { g with cursorRow := g.cursorRow - 1 }
  else if 0 < g.gridPageIndex then
    let g1 := prevGridPage g
    validateCursorPosition { g1 with cursorRow := g1.numRows - 1 }
  else g

/-- `moveDown` from `grid.go`. The source first checks `newRow < g.numRows`
and inside it the flat-index bound, falling through to the page advance in
both failure cases; the two nested conditions are flattened to their
conjunction. -/
def moveDown (g : SecretGrid) : SecretGrid :=
  let newRow := g.cursorRow + 1
  if newRow < g.numRows ∧ newRow * g.numCols + g.cursorCol < (getVisibleSecrets g).length then
    { g with cursorRow := newRow }
  else if g.gridPageIndex < g.totalGridPages - 1 then
    let g1 := nextGridPage g
    { g1 with cursorRow := 0 }
  else g

/-- `moveLeft` from `grid.go`. -/
def moveLeft (g : SecretGrid) : SecretGrid :=
  if 0 < g.cursorCol then { g with cursorCol := g.cursorCol - 1 } else g

/-- `moveRight` from `grid.go`. -/
def moveRight (g : SecretGrid) : SecretGrid :=
  let newCol := g.cursorCol + 1
  if newCol < g.numCols ∧ g.cursorRow * g.numCols + newCol < (getVisibleSecrets g).length then
    { g with cursorCol := newCol }
  else g

/-- Character-level lowercase, modelling Go `strings.ToLower`. -/
def strToLower (s : String) : String :=
  String.mk (s.toList.map Char.toLower)

/-- Substring search on character lists, modelling Go `strings.Contains`
(true when `needle` occurs contiguously inside `hay`). -/
def strContains : List Char → List Char → Bool
  | [], needle => needle.isEmpty
  | c :: t, needle => needle.isPrefixOf (c :: t) || strContains t needle

/-- The per-secret filter test of `applyFilter`:
`strings.Contains(strings.ToLower(secret.Name), lowerQuery)`. -/
def nameMatches (s : Secret) (query : String) : Bool :=
  strContains (strToLower s.name).toList (strToLower query).toList

/-- The filtered list `applyFilter` computes: the full list for the empty
query, otherwise the name-matching sublist. -/
def computeFiltered (secrets : List Secret) (query : String) : List Secret :=
  if query = "" then secrets
  else secrets.filter (fun s => nameMatches s query)

/-- `applyFilter` from `grid.go`: store the query, recompute
`filteredSecrets`, reset the navigation state and recompute dimensions. -/
def applyFilter (g : SecretGrid) (query : String) : SecretGrid :=
  calculateGridDimensions
    { g with filterQuery := query,
             filteredSecrets := computeFiltered g.secrets query,
             cursorRow := 0, cursorCol := 0, gridPageIndex := 0 }

/-- `clearFilter` from `grid.go`. -/
def clearFilter (g : SecretGrid) : SecretGrid :=
  applyFilter { g with filterQuery := "", filtering := false } ""

/-- `SetSecrets` from `grid.go`: replace the secret list, re-apply the stored
filter query, and reset the cursor and screen page. -/
def SetSecrets (g : SecretGrid) (secrets : List Secret) : SecretGrid :=
  let g1 := applyFilter { g with secrets := secrets } g.filterQuery
  { g1 with cursorRow := 0, cursorCol := 0, gridPageIndex := 0 }

/-- `SetSize` from `grid.go`. -/
def SetSize (g : SecretGrid) (width height : Int) : SecretGrid :=
  validateCursorPosition
    (calculateGridDimensions { g with width := width, height := height })

/-- `SecretGrid.Update` from `grid.go`, over the string `msg.String()` of the
incoming key message (the returned command is always nil in the source). In
filter mode "esc" clears, "backspace" deletes one character, "enter" leaves
filter mode, and any single-character key is appended to the query. -/
def gridUpdate (g : SecretGrid) (key : String) : SecretGrid :=
  if g.filtering then
    if key = "esc" then clearFilter g
    else if key = "backspace" then
      if 0 < g.filterQuery.toList.length then
        applyFilter g (String.mk g.filterQuery.toList.dropLast)
      else g
    else if key = "enter" then { g with filtering := false }
    else if key.toList.length = 1 then applyFilter g (g.filterQuery ++ key)
    else g
  else
    if key = "up" ∨ key = "k" then moveUp g
    else if key = "down" ∨ key = "j" then moveDown g
    else if key = "left" ∨ key = "h" then moveLeft g
    else if key = "right" ∨ key = "l" then moveRight g
    else if key = " " ∨ key = "pgdown" then nextGridPage g
    else if key = "pgup" then prevGridPage g
    else if key = "/" then { g with filtering := true }
    else g

/-- A `secretPage` from `app.go`: one remotely fetched page of secrets plus
the continuation token the fetch returned. -/
structure SecretPage where
  secrets : List Secret
  nextToken : Option String
  deriving DecidableEq, Repr

/-- Zero-value page; `pageHistory` indexing in the source is unguarded Go
slice indexing, which panics when out of range — the embedding returns this
default there instead (no claim's trace reaches that point with an
out-of-range index, but see the note on repeated failed fetches in the
results). -/
def emptyPage : SecretPage := { secrets := [], nextToken := none }

/-- The remote-pagination slice of the Bubble Tea `Model` from `app.go`. -/
structure Model where
  secrets : List Secret
  nextToken : Option String
  hasMore : Bool
  pageHistory : List SecretPage
  currentPage : Nat
  grid : SecretGrid
  loading : Bool
  errorMessage : String
  deriving DecidableEq, Repr

/-- `NewModel` from `app.go` restricted to the embedded fields (the Go zero
values for the rest). -/
def NewModel : Model :=
  { secrets := [], nextToken := none, hasMore := false, pageHistory := [],
    currentPage := 0, grid := NewSecretGrid 80 20, loading := true,
    errorMessage := "" }

/-- `handleSecretListKeys` from `app.go`. The second component is the fetch
the handler dispatches: `some tok` stands for the command
`loadSecrets(client, 50, tok)`, `none` for no fetch. Keys that only switch
screens or toggle help ("q", "esc", "enter", "?", "p", "g") leave the
embedded pagination/grid state unchanged. -/
def handleSecretListKeys (m : Model) (key : String) : Model × Option (Option String) :=
  if key = "q" ∨ key = "esc" then (m, none)
  else if key = "enter" then (m, none)
  else if key = "r" then
    ({ m with loading := true, nextToken := none, pageHistory := [], currentPage := 0 },
     some none)
  else if key = "n" then
    if m.hasMore then
      let cp := m.currentPage + 1
      if cp < m.pageHistory.length then
        let page := m.pageHistory.getD cp emptyPage
        ({ m with currentPage := cp, secrets := page.secrets,
                  nextToken := page.nextToken, hasMore := page.nextToken.isSome,
                  grid := SetSecrets m.grid page.secrets }, none)
      else
        ({ m with currentPage := cp, loading := true }, some m.nextToken)
    else (m, none)
  else if key = "b" then
    if 0 < m.currentPage then
      let cp := m.currentPage - 1
      let page := m.pageHistory.getD cp emptyPage
      ({ m with currentPage := cp, secrets := page.secrets,
                nextToken := page.nextToken,
                hasMore := page.nextToken.isSome || decide (cp < m.pageHistory.length - 1),
                grid := SetSecrets m.grid page.secrets }, none)
    else (m, none)
  else if key = "?" ∨ key = "p" ∨ key = "g" then (m, none)
  else ({ m with grid := gridUpdate m.grid key }, none)

/-- The `secretsLoadedMsg` case of `Model.Update` from `app.go`: clear the
loading flag; on error only record the message; on success install the page,
push it into the grid, and update/append the page history entry at
`currentPage`. -/
def updateSecretsLoaded (m : Model) (res : Except String SecretPage) : Model :=
  match res with
  | Except.error e =>
    { m with loading := false, errorMessage := "Failed to load secrets: " ++ e }
  | Except.ok page =>
    let m1 := { m with loading := false, secrets := page.secrets,
                       nextToken := page.nextToken,
                       hasMore := page.nextToken.isSome,
                       grid := SetSecrets m.grid page.secrets,
                       errorMessage := "" }
    if m1.currentPage < m1.pageHistory.length then
      { m1 with pageHistory := m1.pageHistory.set m1.currentPage page }
    else
      { m1 with pageHistory := m1.pageHistory ++ [page] }

/-- One key press followed by synchronous delivery of the fetch result, with
the number of Source fetches performed (0 or 1). `src` is the external
Source collaborator: `src tok` is the outcome of
`client.ListSecrets(ctx, 50, tok)`. -/
def stepKey (src : Option String → Except String SecretPage) (m : Model) (key : String) :
    Model × Nat :=
  match handleSecretListKeys m key with
  | (m1, none) => (m1, 0)
  | (m1, some tok) => (updateSecretsLoaded m1 (src tok), 1)

/-- Run a sequence of key presses, accumulating the total Source fetch count. -/
def runKeys (src : Option String → Except String SecretPage) :
    Model → List String → Model × Nat
  | m, [] => (m, 0)
  | m, k :: ks =>
    let r := stepKey src m k
    let r2 := runKeys src r.1 ks
    (r2.1, r.2 + r2.2)

/-! Concrete instances used by individual claims. -/

/-- Seven secrets: with a 3×2 grid this gives two screen pages (capacity 6). -/
def sevenSecrets : List Secret :=
  [⟨"aws-prod-db","",""⟩, ⟨"aws-prod-api","",""⟩, ⟨"aws-dev-db","",""⟩,
   ⟨"aws-dev-api","",""⟩, ⟨"stripe-key","",""⟩, ⟨"github-token","",""⟩,
   ⟨"slack-webhook","",""⟩]

/-- A grid state at cursor `(row 1, col 1)` on screen page 0 of a 3×2 grid
over seven items: viewport 120×10 yields `numCols = 3, numRows = 2`, and the
cursor was moved down once and right once. From here the cursor cannot move
down within the page and a second screen page exists. -/
def gridC2 : SecretGrid :=
  moveRight (moveDown (SetSecrets (NewSecretGrid 120 10) sevenSecrets))

/-- Five secrets: one ragged last row on a 3×2 grid. -/
def fiveSecrets : List Secret :=
  [⟨"aws-prod-db","",""⟩, ⟨"aws-prod-api","",""⟩, ⟨"aws-dev-db","",""⟩,
   ⟨"aws-dev-api","",""⟩, ⟨"stripe-key","",""⟩]

/-- The grid of claim C5: shape `(columns = 3, rows = 2)` over a filtered set
of length 5. -/
def gridC5 : SecretGrid := SetSecrets (NewSecretGrid 120 10) fiveSecrets

/-- States reachable from `gridC5` by the six navigation operations of the
claim: the four directional moves and the two direct screen-page jumps. -/
inductive ReachC5 : SecretGrid → Prop where
  | init : ReachC5 gridC5
  | up {g} : ReachC5 g → ReachC5 (moveUp g)
  | down {g} : ReachC5 g → ReachC5 (moveDown g)
  | left {g} : ReachC5 g → ReachC5 (moveLeft g)
  | right {g} : ReachC5 g → ReachC5 (moveRight g)
  | nextPage {g} : ReachC5 g → ReachC5 (nextGridPage g)
  | prevPage {g} : ReachC5 g → ReachC5 (prevGridPage g)

/-- The displayed-set invariant of claim C9: the filtered list always equals
the filter of the full secret list by the stored query. -/
def FilterInv (g : SecretGrid) : Prop :=
  g.filteredSecrets = computeFiltered g.secrets g.filterQuery

/-- A grid with a mixed secret list, used to witness the filter claims. -/
def gridC7 : SecretGrid :=
  SetSecrets (NewSecretGrid 80 20)
    [⟨"prod-DB-password","",""⟩, ⟨"api-key","",""⟩, ⟨"db-url","",""⟩]

/-- Remote page 0 of the failing-fetch scenario: one secret and a
continuation token, so more remote data is advertised. -/
def p0C1 : SecretPage := { secrets := [⟨"alpha","",""⟩], nextToken := some "T0" }

/-- A Source whose every fetch fails. -/
def srcFail : Option String → Except String SecretPage :=
  fun _ => Except.error "RequestCanceled"

/-- The model after the initial load of page 0 succeeded. -/
def m0C1 : Model := updateSecretsLoaded NewModel (Except.ok p0C1)

/-- A Source serving pages 1 and 2 for the cache-reuse scenario of claim C4. -/
def srcC4 : Option String → Except String SecretPage := fun t =>
  if t = some "T0" then
    Except.ok { secrets := [⟨"beta","",""⟩], nextToken := some "T1" }
  else if t = some "T1" then
    Except.ok { secrets := [⟨"gamma","",""⟩], nextToken := none }
  else Except.error "unexpected token"

/-- The model of claim C4 after the initial load of page 0. -/
def m0C4 : Model := updateSecretsLoaded NewModel (Except.ok p0C1)

/-- A Source used to witness the refresh claim. -/
def srcC6 : Option String → Except String SecretPage :=
  fun _ => Except.ok { secrets := [⟨"fresh","",""⟩], nextToken := none }

/-! Helper lemmas. -/

/-- Every column count the descent loop returns is at least 1. -/
theorem searchCols_fst_pos (width : Int) :
    ∀ n c w, searchCols width n = some (c, w) → 1 ≤ c := by
  intro n
  induction n with
  | zero => intro c w h; simp [searchCols] at h
  | succ k ih =>
    intro c w h
    rw [searchCols] at h
    split at h
    · injection h with h2
      have h3 : (k + 1 : Nat) = c := congrArg Prod.fst h2
      omega
    · exact ih c w h

/-- When no candidate column count fits, the descent loop returns nothing. -/
theorem searchCols_eq_none (width : Int) (n : Nat)
    (h : ∀ c : Nat, c ≤ n → 1 ≤ c →
      ¬ (MinCellWidth ≤ perCell width c ∧ perCell width c ≤ MaxCellWidth)) :
    searchCols width n = none := by
  induction n with
  | zero => rfl
  | succ k ih =>
    rw [searchCols]
    rw [if_neg (h (k + 1) (Nat.le_refl _) (Nat.succ_le_succ (Nat.zero_le _)))]
    exact ih fun c hc h1 => h c (Nat.le_succ_of_le hc) h1

/-- The computed column count is always at least 1. -/
theorem layoutCols_fst_pos (width : Int) : 1 ≤ (layoutCols width).1 := by
  unfold layoutCols
  cases hs : searchCols width (maxCandidateCols width) with
  | none => simp [hs, MinCellWidth]
  | some p =>
    obtain ⟨c, w⟩ := p
    have hc := searchCols_fst_pos width _ c w hs
    simp only [hs, Option.getD_some]
    split
    · exact Nat.le_refl 1
    · exact hc

/-- The computed row count is always at least 1. -/
theorem layoutRows_pos (height : Int) : 1 ≤ layoutRows height := by
  unfold layoutRows
  have h1 : (1 : Int) ≤ max 1 (godiv height (DefaultCellHeight + 1)) := le_max_left _ _
  omega

/-- `calculateGridDimensions` leaves the secret payload fields untouched. -/
theorem calc_payload (g : SecretGrid) :
    (calculateGridDimensions g).secrets = g.secrets ∧
    (calculateGridDimensions g).filteredSecrets = g.filteredSecrets ∧
    (calculateGridDimensions g).filterQuery = g.filterQuery := ⟨rfl, rfl, rfl⟩

/-- `calculateGridDimensions` computes at least one total grid page. -/
theorem calc_totalGridPages_pos (g : SecretGrid) :
    1 ≤ (calculateGridDimensions g).totalGridPages := by
  show 1 ≤ (if 0 < (layoutCols g.width).1 * layoutRows g.height ∧
      0 < g.filteredSecrets.length then
        (g.filteredSecrets.length + (layoutCols g.width).1 * layoutRows g.height - 1) /
          ((layoutCols g.width).1 * layoutRows g.height)
      else 1)
  split
  · rename_i hcond
    rw [Nat.one_le_div_iff hcond.1]
    omega
  · exact Nat.le_refl 1

/-- When the incoming screen-page index is 0 the clamp keeps it at 0. -/
theorem calc_gridPageIndex_zero (g : SecretGrid) (h : g.gridPageIndex = 0) :
    (calculateGridDimensions g).gridPageIndex = 0 := by
  have hpos := calc_totalGridPages_pos g
  show (if (calculateGridDimensions g).totalGridPages ≤ g.gridPageIndex then
      (calculateGridDimensions g).totalGridPages - 1 else g.gridPageIndex) = 0
  rw [h]
  rw [if_neg (by omega)]

/-! Claim C3. -/

/-- Claim C3 counterexample: at viewport width 61 no candidate column count
(only `c = 1`, since `floor(61/37) = 1`) yields a per-cell width within
`[35, 60]` (the single candidate gives 61 > 60), yet the computation returns
`cellWidth = 35`, not `max(minCellWidth, viewportWidth) = 61`: the source's
fallback `optimalWidth = max(MinCellWidth, g.width)` is dead code, because a
fruitless loop leaves the initial values `optimalCols = 1,
optimalWidth = MinCellWidth`, which never trigger the guard
`optimalCols == 0 || optimalWidth < MinCellWidth`. -/
theorem layoutCols_fallback_cex :
    (∀ c : Nat, c ≤ maxCandidateCols 61 → 1 ≤ c →
      ¬ (MinCellWidth ≤ perCell 61 c ∧ perCell 61 c ≤ MaxCellWidth)) ∧
    ¬ layoutCols 61 = (1, max MinCellWidth 61) := by
  constructor
  · decide
  · decide

/-- Claim C3 (amended): for every viewport width, when no candidate column
count `c` from `floor(viewportWidth/(minCellWidth+spacing))` down to 1 yields
a per-cell width within `[minCellWidth, maxCellWidth]`, the layout
computation returns `columns = 1` and `cellWidth = minCellWidth`. -/
theorem layoutCols_noFit (width : Int)
    (h : ∀ c : Nat, c ≤ maxCandidateCols width → 1 ≤ c →
      ¬ (MinCellWidth ≤ perCell width c ∧ perCell width c ≤ MaxCellWidth)) :
    layoutCols width = (1, MinCellWidth) := by
  have hs := searchCols_eq_none width (maxCandidateCols width) h
  unfold layoutCols
  rw [hs]
  simp [MinCellWidth]

/-- Claim C3 witness: viewport width 10 (narrower than one cell) admits no
fitting candidate, and the computation returns one column at minimum width. -/
theorem layoutCols_noFit_witness :
    (∀ c : Nat, c ≤ maxCandidateCols 10 → 1 ≤ c →
      ¬ (MinCellWidth ≤ perCell 10 c ∧ perCell 10 c ≤ MaxCellWidth)) ∧
    layoutCols 10 = (1, MinCellWidth) :=
  ⟨by decide, layoutCols_noFit 10 (by decide)⟩

/-! Claim C8. -/

/-- Claim C8 counterexample: the viewport `(width, height) = (100, 0)` is
degenerate in the claim's sense (height ≤ 0), yet the layout computes 2
columns, not the minimal shape `columns = 1, rows = 1`. -/
theorem layout_degenerate_cex :
    ((0 : Int) ≤ 0) ∧ (layoutCols 100).1 = 2 ∧ layoutRows 0 = 1 ∧
    ¬ ((layoutCols 100).1 = 1 ∧ layoutRows 0 = 1) := by
  refine ⟨le_refl 0, by decide, by decide, ?_⟩
  decide

/-- Claim C8 (amended): for every viewport input, including width or height
at most 0 or smaller than one cell, the layout computation never fails and
returns at least one column and at least one row, so capacity is at least 1
and the grid state stays renderable and navigable (at least one total grid
page); in particular `compute(10, 10)` with `minCellWidth = 35` yields
`columns = 1, cellWidth = 35` (fallback, since 10 < 35) and `rows ≥ 1`. -/
theorem layout_never_fails (w h : Int) (g : SecretGrid) :
    1 ≤ (layoutCols w).1 ∧ 1 ≤ layoutRows h ∧
    1 ≤ (layoutCols w).1 * layoutRows h ∧
    1 ≤ (calculateGridDimensions g).numCols ∧
    1 ≤ (calculateGridDimensions g).numRows ∧
    1 ≤ (calculateGridDimensions g).totalGridPages ∧
    layoutCols 10 = (1, MinCellWidth) ∧ 1 ≤ layoutRows 10 := by
  refine ⟨layoutCols_fst_pos w, layoutRows_pos h,
    Nat.one_le_iff_ne_zero.mpr ?_, layoutCols_fst_pos g.width,
    layoutRows_pos g.height, calc_totalGridPages_pos g, by decide, by decide⟩
  have h1 := layoutCols_fst_pos w
  have h2 := layoutRows_pos h
  positivity

/-! Claim C2. -/

/-- Claim C2 counterexample: in state `gridC2` (cursor at row 1, column 1 of
a 3×2 grid over seven items) the cursor cannot move down within the current
screen page and a next screen page exists, yet `moveDown` resets the cursor
column to 0 instead of leaving it unchanged at 1: `nextGridPage` resets both
cursor coordinates before `moveDown` re-zeroes the row. -/
theorem moveDown_pageCross_cex :
    ¬ (gridC2.cursorRow + 1 < gridC2.numRows ∧
       (gridC2.cursorRow + 1) * gridC2.numCols + gridC2.cursorCol <
         (getVisibleSecrets gridC2).length) ∧
    gridC2.gridPageIndex + 1 < gridC2.totalGridPages ∧
    gridC2.cursorCol = 1 ∧
    ¬ (moveDown gridC2).cursorCol = gridC2.cursorCol := by
  refine ⟨by decide, by decide, by decide, by decide⟩

/-- Claim C2 (amended): for every grid state in which the cursor cannot move
down within the current screen page and `screenPageIndex + 1 <
totalScreenPages`, `moveDown` advances to the next screen page and resets
`cursorRow = 0` and `cursorCol = 0` (the column is reset along with the row,
not preserved). -/
theorem moveDown_pageCross (g : SecretGrid)
    (hdown : ¬ (g.cursorRow + 1 < g.numRows ∧
      (g.cursorRow + 1) * g.numCols + g.cursorCol < (getVisibleSecrets g).length))
    (hpage : g.gridPageIndex + 1 < g.totalGridPages) :
    (moveDown g).gridPageIndex = g.gridPageIndex + 1 ∧
    (moveDown g).cursorRow = 0 ∧ (moveDown g).cursorCol = 0 := by
  have h2 : g.gridPageIndex < g.totalGridPages - 1 := by omega
  unfold moveDown nextGridPage
  rw [if_neg hdown, if_pos h2, if_pos h2]
  exact ⟨rfl, rfl, rfl⟩

/-- Claim C2 witness: the amended statement evaluated at `gridC2`. -/
theorem moveDown_pageCross_witness :
    (moveDown gridC2).gridPageIndex = gridC2.gridPageIndex + 1 ∧
    (moveDown gridC2).cursorRow = 0 ∧ (moveDown gridC2).cursorCol = 0 :=
  moveDown_pageCross gridC2 (by decide) (by decide)

/-! Claim C5. -/

/-- Claim C5: for every navigation state reachable by any sequence of
directional moves and screen-page jumps over the 3×2 grid with 5 filtered
items, `SelectedSecret` returns exactly the element of the current screen
page's slice at the flat index `cursorRow*columns + cursorCol` (so `none`
whenever that index is past the slice's item count), and whenever it returns
an item the flat index is strictly within the slice — the guarded access
never reads past the item count. -/
theorem selectedSecret_safe (g : SecretGrid) (_hreach : ReachC5 g) :
    SelectedSecret g = (getVisibleSecrets g)[cursorIndex g]? ∧
    (¬ cursorIndex g < (getVisibleSecrets g).length → SelectedSecret g = none) := by
  constructor
  · simp only [SelectedSecret]
    split
    · rename_i hlt
      rw [List.getElem?_eq_getElem hlt]
      rfl
    · rename_i hge
      rw [List.getElem?_eq_none (Nat.le_of_not_lt hge)]
  · intro hge
    simp only [SelectedSecret]
    rw [dif_neg hge]

/-- Claim C5 witness: the safety statement evaluated at the initial state of
the scenario. -/
theorem selectedSecret_safe_witness :
    SelectedSecret gridC5 = (getVisibleSecrets gridC5)[cursorIndex gridC5]? ∧
    (¬ cursorIndex gridC5 < (getVisibleSecrets gridC5).length →
      SelectedSecret gridC5 = none) :=
  selectedSecret_safe gridC5 ReachC5.init

/-! Claim C7. -/

/-- Claim C7: for every item list and query, the filter returns the
order-preserving subsequence (a `List.Sublist`) of the secrets whose
lowercased display name contains the lowercased query; the empty query
returns the full list unchanged and in original order; and a non-empty query
matching no name yields the empty list (the computation is total — no
pattern language, no failure). -/
theorem applyFilter_spec (g : SecretGrid) (q : String) :
    ((applyFilter g q).filteredSecrets).Sublist g.secrets ∧
    (q = "" → (applyFilter g q).filteredSecrets = g.secrets) ∧
    (q ≠ "" → (applyFilter g q).filteredSecrets =
      g.secrets.filter (fun s => nameMatches s q)) ∧
    (q ≠ "" → g.secrets.all (fun s => ! nameMatches s q) = true →
      (applyFilter g q).filteredSecrets = []) := by
  have hfs : (applyFilter g q).filteredSecrets = computeFiltered g.secrets q := rfl
  rw [hfs]
  unfold computeFiltered
  by_cases hq : q = ""
  · rw [if_pos hq]
    exact ⟨List.Sublist.refl _, fun _ => rfl, fun hne => absurd hq hne,
      fun hne _ => absurd hq hne⟩
  · rw [if_neg hq]
    refine ⟨List.filter_sublist _, fun he => absurd he hq, fun _ => rfl, ?_⟩
    intro _ hall
    rw [List.filter_eq_nil_iff]
    intro a ha
    have := (List.all_eq_true.mp hall) a ha
    simp only [Bool.not_eq_eq_eq_not, Bool.not_true] at this
    simp [this]

/-- Claim C7 witness: the filter statement evaluated on a concrete grid and
the query "db". -/
theorem applyFilter_spec_witness :
    ((applyFilter gridC7 "db").filteredSecrets).Sublist gridC7.secrets ∧
    (("db" : String) = "" → (applyFilter gridC7 "db").filteredSecrets = gridC7.secrets) ∧
    (("db" : String) ≠ "" → (applyFilter gridC7 "db").filteredSecrets =
      gridC7.secrets.filter (fun s => nameMatches s "db")) ∧
    (("db" : String) ≠ "" → gridC7.secrets.all (fun s => ! nameMatches s "db") = true →
      (applyFilter gridC7 "db").filteredSecrets = []) :=
  applyFilter_spec gridC7 "db"

/-! Claim C9. -/

/-- A state with the same payload fields (secrets, filtered list, query) as
another satisfies the filter invariant whenever the other does. -/
theorem filterInv_of_payload {g g1 : SecretGrid}
    (hs : g1.secrets = g.secrets) (hf : g1.filteredSecrets = g.filteredSecrets)
    (hq : g1.filterQuery = g.filterQuery) (h : FilterInv g) : FilterInv g1 := by
  unfold FilterInv at *
  rw [hs, hf, hq]
  exact h

/-- `applyFilter` establishes the filter invariant unconditionally. -/
theorem filterInv_applyFilter (g : SecretGrid) (q : String) :
    FilterInv (applyFilter g q) := rfl

/-- `SetSecrets` establishes the filter invariant unconditionally. -/
theorem filterInv_SetSecrets (g : SecretGrid) (s : List Secret) :
    FilterInv (SetSecrets g s) := rfl

/-- `clearFilter` establishes the filter invariant unconditionally. -/
theorem filterInv_clearFilter (g : SecretGrid) : FilterInv (clearFilter g) :=
  filterInv_applyFilter { g with filterQuery := "", filtering := false } ""

/-- `validateCursorPosition` leaves the payload fields untouched. -/
theorem validate_payload (g : SecretGrid) :
    (validateCursorPosition g).secrets = g.secrets ∧
    (validateCursorPosition g).filteredSecrets = g.filteredSecrets ∧
    (validateCursorPosition g).filterQuery = g.filterQuery := by
  unfold validateCursorPosition
  split <;> exact ⟨rfl, rfl, rfl⟩

/-- `moveUp` leaves the payload fields untouched. -/
theorem moveUp_payload (g : SecretGrid) :
    (moveUp g).secrets = g.secrets ∧
    (moveUp g).filteredSecrets = g.filteredSecrets ∧
    (moveUp g).filterQuery = g.filterQuery := by
  simp only [moveUp, validateCursorPosition, prevGridPage]
  repeat' split
  all_goals exact ⟨rfl, rfl, rfl⟩

/-- `moveDown` leaves the payload fields untouched. -/
theorem moveDown_payload (g : SecretGrid) :
    (moveDown g).secrets = g.secrets ∧
    (moveDown g).filteredSecrets = g.filteredSecrets ∧
    (moveDown g).filterQuery = g.filterQuery := by
  simp only [moveDown, nextGridPage]
  repeat' split
  all_goals exact ⟨rfl, rfl, rfl⟩

/-- `moveLeft` leaves the payload fields untouched. -/
theorem moveLeft_payload (g : SecretGrid) :
    (moveLeft g).secrets = g.secrets ∧
    (moveLeft g).filteredSecrets = g.filteredSecrets ∧
    (moveLeft g).filterQuery = g.filterQuery := by
  simp only [moveLeft]
  repeat' split
  all_goals exact ⟨rfl, rfl, rfl⟩

/-- `moveRight` leaves the payload fields untouched. -/
theorem moveRight_payload (g : SecretGrid) :
    (moveRight g).secrets = g.secrets ∧
    (moveRight g).filteredSecrets = g.filteredSecrets ∧
    (moveRight g).filterQuery = g.filterQuery := by
  simp only [moveRight]
  repeat' split
  all_goals exact ⟨rfl, rfl, rfl⟩

/-- `nextGridPage` leaves the payload fields untouched. -/
theorem nextGridPage_payload (g : SecretGrid) :
    (nextGridPage g).secrets = g.secrets ∧
    (nextGridPage g).filteredSecrets = g.filteredSecrets ∧
    (nextGridPage g).filterQuery = g.filterQuery := by
  unfold nextGridPage
  split <;> exact ⟨rfl, rfl, rfl⟩

/-- `prevGridPage` leaves the payload fields untouched. -/
theorem prevGridPage_payload (g : SecretGrid) :
    (prevGridPage g).secrets = g.secrets ∧
    (prevGridPage g).filteredSecrets = g.filteredSecrets ∧
    (prevGridPage g).filterQuery = g.filterQuery := by
  unfold prevGridPage
  split <;> exact ⟨rfl, rfl, rfl⟩

/-- `SetSize` leaves the payload fields untouched. -/
theorem SetSize_payload (g : SecretGrid) (w h : Int) :
    (SetSize g w h).secrets = g.secrets ∧
    (SetSize g w h).filteredSecrets = g.filteredSecrets ∧
    (SetSize g w h).filterQuery = g.filterQuery := by
  simp only [SetSize, validateCursorPosition]
  repeat' split
  all_goals exact ⟨rfl, rfl, rfl⟩

/-- Every branch of the key handler either preserves the payload fields or
re-establishes the filter invariant by re-filtering. -/
theorem filterInv_gridUpdate (g : SecretGrid) (key : String) (h : FilterInv g) :
    FilterInv (gridUpdate g key) := by
  simp only [gridUpdate]
  repeat' split
  all_goals
    first
    | exact filterInv_clearFilter g
    | exact filterInv_applyFilter g _
    | exact h
    | exact filterInv_of_payload (moveUp_payload g).1 (moveUp_payload g).2.1
        (moveUp_payload g).2.2 h
    | exact filterInv_of_payload (moveDown_payload g).1 (moveDown_payload g).2.1
        (moveDown_payload g).2.2 h
    | exact filterInv_of_payload (moveLeft_payload g).1 (moveLeft_payload g).2.1
        (moveLeft_payload g).2.2 h
    | exact filterInv_of_payload (moveRight_payload g).1 (moveRight_payload g).2.1
        (moveRight_payload g).2.2 h
    | exact filterInv_of_payload (nextGridPage_payload g).1 (nextGridPage_payload g).2.1
        (nextGridPage_payload g).2.2 h
    | exact filterInv_of_payload (prevGridPage_payload g).1 (prevGridPage_payload g).2.1
        (prevGridPage_payload g).2.2 h

/-- Claim C9: after every public grid operation the displayed filtered set
equals the filter of the full secret list by the stored query; in
particular `SetSecrets` keeps the stored query and re-applies it to the new
list, so an active filter persists unchanged across remote-page changes. -/
theorem filter_invariant_all_ops (g : SecretGrid) (h : FilterInv g)
    (s : List Secret) (w hgt : Int) (key : String) :
    FilterInv (SetSecrets g s) ∧
    (SetSecrets g s).filterQuery = g.filterQuery ∧
    (SetSecrets g s).filteredSecrets = computeFiltered s g.filterQuery ∧
    FilterInv (SetSize g w hgt) ∧
    FilterInv (moveUp g) ∧ FilterInv (moveDown g) ∧
    FilterInv (moveLeft g) ∧ FilterInv (moveRight g) ∧
    FilterInv (nextGridPage g) ∧ FilterInv (prevGridPage g) ∧
    FilterInv (gridUpdate g key) := by
  obtain ⟨h1, h2, h3⟩ := SetSize_payload g w hgt
  obtain ⟨u1, u2, u3⟩ := moveUp_payload g
  obtain ⟨d1, d2, d3⟩ := moveDown_payload g
  obtain ⟨l1, l2, l3⟩ := moveLeft_payload g
  obtain ⟨r1, r2, r3⟩ := moveRight_payload g
  obtain ⟨n1, n2, n3⟩ := nextGridPage_payload g
  obtain ⟨p1, p2, p3⟩ := prevGridPage_payload g
  exact ⟨filterInv_SetSecrets g s, rfl, rfl,
    filterInv_of_payload h1 h2 h3 h,
    filterInv_of_payload u1 u2 u3 h,
    filterInv_of_payload d1 d2 d3 h,
    filterInv_of_payload l1 l2 l3 h,
    filterInv_of_payload r1 r2 r3 h,
    filterInv_of_payload n1 n2 n3 h,
    filterInv_of_payload p1 p2 p3 h,
    filterInv_gridUpdate g key h⟩

/-- Claim C9 witness: the invariant statement evaluated at a grid holding the
query "db", a new secret list, a resize and a movement key. -/
theorem filter_invariant_all_ops_witness :
    FilterInv (applyFilter gridC7 "db") ∧
    (SetSecrets (applyFilter gridC7 "db") sevenSecrets).filterQuery =
      (applyFilter gridC7 "db").filterQuery ∧
    FilterInv (SetSecrets (applyFilter gridC7 "db") sevenSecrets) :=
  ⟨filterInv_applyFilter gridC7 "db",
   (filter_invariant_all_ops (applyFilter gridC7 "db")
     (filterInv_applyFilter gridC7 "db") sevenSecrets 50 10 "down").2.1,
   (filter_invariant_all_ops (applyFilter gridC7 "db")
     (filterInv_applyFilter gridC7 "db") sevenSecrets 50 10 "down").1⟩

/-! Claim C10. -/

/-- Claim C10: while filter mode is active, escape clears the query, leaves
filter mode, restores the full unfiltered secret list as the displayed set
and resets cursor and screen page to `(0, 0, 0)`; enter leaves filter mode
while keeping the query and the filtered set unchanged. -/
theorem filterMode_esc_enter (g : SecretGrid) (h : g.filtering = true) :
    (gridUpdate g "esc").filterQuery = "" ∧
    (gridUpdate g "esc").filtering = false ∧
    (gridUpdate g "esc").filteredSecrets = g.secrets ∧
    (gridUpdate g "esc").cursorRow = 0 ∧
    (gridUpdate g "esc").cursorCol = 0 ∧
    (gridUpdate g "esc").gridPageIndex = 0 ∧
    (gridUpdate g "enter").filtering = false ∧
    (gridUpdate g "enter").filterQuery = g.filterQuery ∧
    (gridUpdate g "enter").filteredSecrets = g.filteredSecrets := by
  have hesc : gridUpdate g "esc" = clearFilter g := by
    simp [gridUpdate, h]
  have henter : gridUpdate g "enter" = { g with filtering := false } := by
    simp [gridUpdate, h]
  rw [hesc, henter]
  have hidx : (clearFilter g).gridPageIndex = 0 :=
    calc_gridPageIndex_zero
      { g with filterQuery := "", filtering := false,
               filteredSecrets := computeFiltered g.secrets "",
               cursorRow := 0, cursorCol := 0, gridPageIndex := 0 } rfl
  exact ⟨rfl, rfl, rfl, rfl, rfl, hidx, rfl, rfl, rfl⟩

/-- Claim C10 witness: the escape/enter statement evaluated at a filtering
grid with query "db". -/
theorem filterMode_esc_enter_witness :
    (gridUpdate { applyFilter gridC7 "db" with filtering := true } "esc").filterQuery = "" ∧
    (gridUpdate { applyFilter gridC7 "db" with filtering := true } "esc").filtering = false ∧
    (gridUpdate { applyFilter gridC7 "db" with filtering := true } "esc").filteredSecrets =
      { applyFilter gridC7 "db" with filtering := true }.secrets ∧
    (gridUpdate { applyFilter gridC7 "db" with filtering := true } "esc").cursorRow = 0 ∧
    (gridUpdate { applyFilter gridC7 "db" with filtering := true } "esc").cursorCol = 0 ∧
    (gridUpdate { applyFilter gridC7 "db" with filtering := true } "esc").gridPageIndex = 0 ∧
    (gridUpdate { applyFilter gridC7 "db" with filtering := true } "enter").filtering = false ∧
    (gridUpdate { applyFilter gridC7 "db" with filtering := true } "enter").filterQuery =
      { applyFilter gridC7 "db" with filtering := true }.filterQuery ∧
    (gridUpdate { applyFilter gridC7 "db" with filtering := true } "enter").filteredSecrets =
      { applyFilter gridC7 "db" with filtering := true }.filteredSecrets :=
  filterMode_esc_enter { applyFilter gridC7 "db" with filtering := true } rfl

/-! Claim C1. -/

/-- Claim C1, evaluated at the failing input: from a freshly loaded page 0
(one secret, continuation token "T0"), pressing "n" dispatches one fetch;
when the fetch fails, the page history and the grid navigation state are
indeed left unchanged and the error is reported, but `currentPage` remains
incremented at 1 — the handler increments it before dispatching the fetch
and the error path never rolls it back, so the remote-page index does not
return to its pre-attempt value 0 as the claim requires. -/
theorem nextRemotePage_failure_desyncs_index :
    (stepKey srcFail m0C1 "n").2 = 1 ∧
    (stepKey srcFail m0C1 "n").1.pageHistory = m0C1.pageHistory ∧
    (stepKey srcFail m0C1 "n").1.grid = m0C1.grid ∧
    (stepKey srcFail m0C1 "n").1.secrets = m0C1.secrets ∧
    (stepKey srcFail m0C1 "n").1.errorMessage =
      "Failed to load secrets: RequestCanceled" ∧
    m0C1.currentPage = 0 ∧
    (stepKey srcFail m0C1 "n").1.currentPage = 1 := by
  refine ⟨rfl, by decide, by decide, by decide, rfl, rfl, rfl⟩

/-! Claim C4. -/

/-- Claim C4: starting from a freshly loaded first remote page (history
`[p0]`, index 0, continuation token `t0` present), if advancing succeeds
twice, then retreating once, then advancing again, the final advance is
served from the page cache: the total number of Source fetches over the four
actions is exactly 2. -/
theorem cached_advance_no_refetch
    (src : Option String → Except String SecretPage)
    (m0 : Model) (p0 p1 p2 : SecretPage) (t0 t1 : String)
    (hh : m0.pageHistory = [p0]) (hc : m0.currentPage = 0)
    (hm : m0.hasMore = true) (ht : m0.nextToken = some t0)
    (hf1 : src (some t0) = Except.ok p1) (ht1 : p1.nextToken = some t1)
    (hf2 : src (some t1) = Except.ok p2) :
    (runKeys src m0 ["n", "n", "b", "n"]).2 = 2 := by
  simp [runKeys, stepKey, handleSecretListKeys, updateSecretsLoaded,
    hh, hc, hm, ht, hf1, ht1, hf2, List.getD]

/-- Claim C4 witness: the fetch-count statement evaluated on a concrete
model and Source. -/
theorem cached_advance_no_refetch_witness :
    (runKeys srcC4 m0C4 ["n", "n", "b", "n"]).2 = 2 :=
  cached_advance_no_refetch srcC4 m0C4 p0C1
    { secrets := [⟨"beta","",""⟩], nextToken := some "T1" }
    { secrets := [⟨"gamma","",""⟩], nextToken := none }
    "T0" "T1" (by decide) rfl (by decide) (by decide) rfl rfl rfl

/-! Claim C6. -/

/-- Claim C6: after a Refresh action ("r") whose re-fetch succeeds, the
remote page index is 0, the cached page history holds exactly the one
freshly fetched page, and the grid navigation state is at
`(cursorRow, cursorCol, screenPageIndex) = (0, 0, 0)`. -/
theorem refresh_resets_state
    (src : Option String → Except String SecretPage)
    (m : Model) (p : SecretPage) (h : src none = Except.ok p) :
    (stepKey src m "r").1.currentPage = 0 ∧
    (stepKey src m "r").1.pageHistory.length = 1 ∧
    (stepKey src m "r").1.grid.cursorRow = 0 ∧
    (stepKey src m "r").1.grid.cursorCol = 0 ∧
    (stepKey src m "r").1.grid.gridPageIndex = 0 := by
  simp [stepKey, handleSecretListKeys, updateSecretsLoaded, h, SetSecrets]

/-- Claim C6 witness: the refresh statement evaluated on a concrete model
and Source. -/
theorem refresh_resets_state_witness :
    (stepKey srcC6 m0C1 "r").1.currentPage = 0 ∧
    (stepKey srcC6 m0C1 "r").1.pageHistory.length = 1 ∧
    (stepKey srcC6 m0C1 "r").1.grid.cursorRow = 0 ∧
    (stepKey srcC6 m0C1 "r").1.grid.cursorCol = 0 ∧
    (stepKey srcC6 m0C1 "r").1.grid.gridPageIndex = 0 :=
  refresh_resets_state srcC6 m0C1 { secrets := [⟨"fresh","",""⟩], nextToken := none } rfl
